import Mathlib

/-!
Shallow embedding of the scoring-attribution logic of `src/dashboard.py`
(FootyAnalytics/fpl-simple-analytics).

A pandas row of a player's weekly history becomes a `WeeklyStat` record; a
history DataFrame becomes a `List WeeklyStat`.  Per-row vectorized pandas
expressions become per-row Lean functions, and `.sum()` becomes `List.sum`
over the mapped list.  Python `//` is floor division, embedded as `Int.fdiv`.
Float arithmetic of the "% of Total" column is modelled over `ℚ` (the claims
under study only touch its guarded zero branch, which is exact).
-/

/-- One record of a player's weekly history (`weekly[str(pid)]` entries).
All stat fields default to 0, mirroring `.fillna(0)` and the
`df_hist.get("defensive_contribution", 0-series)` default in the source. -/
structure WeeklyStat where
  round : Int := 0
  minutes : Int := 0
  goals_scored : Int := 0
  assists : Int := 0
  clean_sheets : Int := 0
  goals_conceded : Int := 0
  own_goals : Int := 0
  penalties_saved : Int := 0
  penalties_missed : Int := 0
  yellow_cards : Int := 0
  red_cards : Int := 0
  saves : Int := 0
  bonus : Int := 0
  defensive_contribution : Int := 0
  total_points : Int := 0
deriving Repr, DecidableEq

/-- The filter `df[(df["round"] >= gw1) & (df["round"] <= gw2)]` — the inclusive
gameweek-range filter applied to a player's history. -/
def filter_round_range (history : List WeeklyStat) (gw1 gw2 : Int) : List WeeklyStat :=
  history.filter (fun r => decide (gw1 ≤ r.round ∧ r.round ≤ gw2))

/-- Function `get_points_for_range` (dashboard.py lines 271-277): look up the player's
history (the caller passes `weekly.get(str(player_id), [])`), return 0 when it
is empty, otherwise sum `total_points` over rounds in `[gw1, gw2]`. -/
def get_points_for_range (history : List WeeklyStat) (gw1 gw2 : Int) : Int :=
  if history.isEmpty then 0
  else ((filter_round_range history gw1 gw2).map (fun r => r.total_points)).sum

/-- One row of the contribution DataFrame: columns Category / Points / % of Total. -/
structure ContribRow where
  category : String
  points : Int
  pct_of_total : ℚ
deriving Repr, DecidableEq

/-- Per-row `((mins > 0) & (mins < 60)) * 1 + (mins >= 60) * 2`. -/
def minutes_points_row (m : Int) : Int :=
  (if 0 < m ∧ m < 60 then 1 else 0) * 1 + (if 60 ≤ m then 1 else 0) * 2

/-- The table `goal_points_map = {"GK": 10, "DEF": 6, "MID": 5, "FWD": 4}` with
`.get(position, 0)`. -/
def goal_points_map (position : String) : Int :=
  if position = "GK" then 10
  else if position = "DEF" then 6
  else if position = "MID" then 5
  else if position = "FWD" then 4
  else 0

/-- Per-row `cs_mask = (mins >= 60) & (clean_sheets > 0)` then multiplied by 4 for
GK/DEF, 1 for MID, 0 otherwise — per row. -/
def cs_points_row (position : String) (m cs : Int) : Int :=
  (if 60 ≤ m ∧ 0 < cs then 1 else 0) *
    (if position = "GK" ∨ position = "DEF" then 4
     else if position = "MID" then 1
     else 0)

/-- Per-row `gc_points = -((goals_conceded // 2))` for GK/DEF, else 0. -/
def gc_points_row (position : String) (gc : Int) : Int :=
  if position = "GK" ∨ position = "DEF" then -(Int.fdiv gc 2) else 0

/-- Per-row `save_points = (saves // 3) * 1` (note: computed for every
position in the source, with no goalkeeper gate). -/
def save_points_row (s : Int) : Int :=
  (Int.fdiv s 3) * 1

/-- Per-row `pen_save_points + pen_miss_points = pen_saved * 5 + pen_missed * -2`. -/
def pen_points_row (ps pm : Int) : Int :=
  ps * 5 + pm * (-2)

/-- Per-row `card_points = yc * -1 + rc * -3`. -/
def card_points_row (y r : Int) : Int :=
  y * (-1) + r * (-3)

/-- Per-row `og_points = own_goals * -2`. -/
def og_points_row (og : Int) : Int :=
  og * (-2)

/-- Defensive contribution, per row: `((dc // 10).clip(upper=1)) * 2` for DEF,
`((dc // 12).clip(upper=1)) * 2` for MID/FWD, `0 * dc` otherwise.
`clip(upper=1)` is `min · 1`. -/
def dc_points_row (position : String) (dc : Int) : Int :=
  if position = "DEF" then (min (Int.fdiv dc 10) 1) * 2
  else if position = "MID" ∨ position = "FWD" then (min (Int.fdiv dc 12) 1) * 2
  else 0

/-- The `contrib` dict keys, in source insertion order (lines 420-432; the
empty-history branch at lines 341-353 lists the same keys in a different
order but yields the same all-zero mapping). -/
def category_names : List String :=
  ["Minutes", "Goals", "Assists", "Clean Sheets", "Goals Conceded",
   "Saves", "Penalties", "Cards", "Own Goals", "Bonus", "Defensive Contribution"]

/-- Rounding `.round(1)` of the % column, over ℚ. -/
def round1 (q : ℚ) : ℚ :=
  ((round (q * 10) : ℤ) : ℚ) / 10

/-- The `% of Total` column: `(points / total_points * 100).round(1)` when
`total_points > 0`, else the literal `0.0`. -/
def pct_of (points total : Int) : ℚ :=
  if 0 < total then round1 ((points : ℚ) / (total : ℚ) * 100) else 0

/-- The `contrib` dict of `build_points_contribution` for a nonempty
`df_hist`: each category paired with the `.sum()` of its per-row points. -/
def contrib_points (df_hist : List WeeklyStat) (position : String) : List (String × Int) :=
  [("Minutes", (df_hist.map (fun r => minutes_points_row r.minutes)).sum),
   ("Goals", (df_hist.map (fun r => r.goals_scored * goal_points_map position)).sum),
   ("Assists", (df_hist.map (fun r => r.assists * 3)).sum),
   ("Clean Sheets", (df_hist.map (fun r => cs_points_row position r.minutes r.clean_sheets)).sum),
   ("Goals Conceded", (df_hist.map (fun r => gc_points_row position r.goals_conceded)).sum),
   ("Saves", (df_hist.map (fun r => save_points_row r.saves)).sum),
   ("Penalties", (df_hist.map (fun r => pen_points_row r.penalties_saved r.penalties_missed)).sum),
   ("Cards", (df_hist.map (fun r => card_points_row r.yellow_cards r.red_cards)).sum),
   ("Own Goals", (df_hist.map (fun r => og_points_row r.own_goals)).sum),
   ("Bonus", (df_hist.map (fun r => r.bonus)).sum),
   ("Defensive Contribution",
      (df_hist.map (fun r => dc_points_row position r.defensive_contribution)).sum)]

/-- Function `build_points_contribution(df_hist, position)` (dashboard.py lines
334-442): on an empty `df_hist` return the all-zero 11-category frame with
`% of Total = 0.0` and total `0.0`; otherwise compute per-category point sums,
attach the guarded percentage column, and return the frame together with
`total_points = df_hist["total_points"].sum()`. -/
def build_points_contribution (df_hist : List WeeklyStat) (position : String) :
    List ContribRow × Int :=
  if df_hist.isEmpty then
    (category_names.map (fun c => ⟨c, 0, 0⟩), 0)
  else
    let total := (df_hist.map (fun r => r.total_points)).sum
    ((contrib_points df_hist position).map (fun cp => ⟨cp.1, cp.2, pct_of cp.2 total⟩), total)

/-- Lookup `float(d.loc[cat, "Points"]) if cat in d.index else 0.0` — the category
lookup used by `show_overlay` when comparing breakdowns. -/
def category_points (rows : List ContribRow) (c : String) : Int :=
  match rows.find? (fun r => decide (r.category = c)) with
  | some r => r.points
  | none => 0

/-- The winner-star rule of the comparison table (lines 587-595):
a star when `max_pts > 0 and abs(pts - max_pts) < 1e-9`. -/
def winner_star (pts max_pts : ℚ) : Bool :=
  decide (0 < max_pts) && decide (|pts - max_pts| < 1 / 1000000000)

/-- Star assignment for a two-player category row: `max_pts` is the maximum
of the two values, each player is starred by `winner_star`. -/
def compare_stars (ptsA ptsB : ℚ) : Bool × Bool :=
  let max_pts := max ptsA ptsB
  (winner_star ptsA max_pts, winner_star ptsB max_pts)

/-- The per-player step of `show_overlay` (lines 520-528): a player whose
looked-up history `weekly.get(str(pid), [])` is empty is skipped (`none`) —
the missing-player outcome; otherwise the history is range-filtered and fed
to `build_points_contribution`. -/
def player_contribution (history : List WeeklyStat) (gw1 gw2 : Int) (position : String) :
    Option (List ContribRow × Int) :=
  if history.isEmpty then none
  else some (build_points_contribution (filter_round_range history gw1 gw2) position)

/-- Modelled from the spec: the Reconciler (§4.4) has no counterpart in
`src/dashboard.py` (the code stores no residual entry); per the spec's words
the residual is the authoritative total minus the sum of category points. -/
def reconcile_residual (rows : List ContribRow) (total : Int) : Int :=
  total - (rows.map (fun r => r.points)).sum

theorem category_points_cons (r : ContribRow) (rest : List ContribRow) (c : String) :
    category_points (r :: rest) c =
      if r.category = c then r.points else category_points rest c := by
  by_cases h : r.category = c
  · simp [category_points, List.find?_cons_of_pos, h]
  · simp [category_points, List.find?_cons_of_neg, h]

theorem build_fst_cons (r : WeeklyStat) (t : List WeeklyStat) (position : String) :
    (build_points_contribution (r :: t) position).1 =
      (contrib_points (r :: t) position).map
        (fun cp => ⟨cp.1, cp.2, pct_of cp.2 (((r :: t).map (fun s => s.total_points)).sum)⟩) := by
  simp [build_points_contribution]

theorem build_snd (df_hist : List WeeklyStat) (position : String) :
    (build_points_contribution df_hist position).2 =
      (df_hist.map (fun r => r.total_points)).sum := by
  cases df_hist with
  | nil => simp [build_points_contribution]
  | cons r t => simp [build_points_contribution]

theorem category_points_build_saves (df_hist : List WeeklyStat) (position : String) :
    category_points (build_points_contribution df_hist position).1 ("Saves") =
      (df_hist.map (fun r => save_points_row r.saves)).sum := by
  cases df_hist with
  | nil => rfl
  | cons r t =>
      rw [build_fst_cons]
      simp [contrib_points, category_points_cons]

theorem category_points_build_minutes (df_hist : List WeeklyStat) (position : String) :
    category_points (build_points_contribution df_hist position).1 ("Minutes") =
      (df_hist.map (fun r => minutes_points_row r.minutes)).sum := by
  cases df_hist with
  | nil => rfl
  | cons r t =>
      rw [build_fst_cons]
      simp [contrib_points, category_points_cons]

theorem category_points_build_dc (df_hist : List WeeklyStat) (position : String) :
    category_points (build_points_contribution df_hist position).1 ("Defensive Contribution") =
      (df_hist.map (fun r => dc_points_row position r.defensive_contribution)).sum := by
  cases df_hist with
  | nil => rfl
  | cons r t =>
      rw [build_fst_cons]
      simp [contrib_points, category_points_cons]

theorem build_fst_categories (df_hist : List WeeklyStat) (position : String) :
    (build_points_contribution df_hist position).1.map (fun r => r.category) =
      category_names := by
  cases df_hist with
  | nil => rfl
  | cons r t =>
      rw [build_fst_cons]
      simp [contrib_points, category_names]

theorem minutes_points_row_cases (m : Int) :
    minutes_points_row m = if 60 ≤ m then 2 else if 0 < m then 1 else 0 := by
  unfold minutes_points_row
  split_ifs <;> omega

theorem dc_points_row_binary (position : String) (t dc : Int)
    (hpt : (position = "DEF" ∧ t = 10) ∨ ((position = "MID" ∨ position = "FWD") ∧ t = 12))
    (h0 : 0 ≤ dc) :
    dc_points_row position dc = if t ≤ dc then 2 else 0 := by
  rcases hpt with ⟨hp, ht⟩ | ⟨hp, ht⟩
  · subst ht
    rw [dc_points_row, if_pos hp, Int.fdiv_eq_ediv _ (by norm_num)]
    rcases min_cases (dc / 10) 1 with ⟨hm, hle⟩ | ⟨hm, hlt⟩ <;> rw [hm] <;>
      split_ifs with hbd <;> omega
  · subst ht
    have hne : position ≠ "DEF" := by
      rcases hp with h | h <;> subst h <;> decide
    rw [dc_points_row, if_neg hne, if_pos hp, Int.fdiv_eq_ediv _ (by norm_num)]
    rcases min_cases (dc / 12) 1 with ⟨hm, hle⟩ | ⟨hm, hlt⟩ <;> rw [hm] <;>
      split_ifs with hbd <;> omega

theorem sum_filter_round_split (l : List WeeklyStat) (a b c : Int)
    (hab : a ≤ b) (hbc : b < c) :
    ((filter_round_range l a c).map (fun r => r.total_points)).sum =
      ((filter_round_range l a b).map (fun r => r.total_points)).sum +
      ((filter_round_range l (b + 1) c).map (fun r => r.total_points)).sum := by
  induction l with
  | nil => simp [filter_round_range]
  | cons r t ih =>
      simp only [filter_round_range, List.filter_cons] at ih ⊢
      split_ifs with h1 h2 h3
      all_goals simp only [Bool.and_eq_true, decide_eq_true_eq, Bool.not_eq_true,
        Bool.and_eq_false_iff, decide_eq_false_iff_not, List.map_cons,
        List.sum_cons] at *
      all_goals omega

theorem sum_binary_le (l : List WeeklyStat) (t : Int) :
    (l.map (fun r => if t ≤ r.defensive_contribution then (2 : Int) else 0)).sum ≤
      2 * (l.length : Int) := by
  induction l with
  | nil => simp
  | cons r l' ih =>
      simp only [List.map_cons, List.sum_cons, List.length_cons]
      push_cast
      split_ifs <;> omega

/-- C8: for `a ≤ b < c` the authoritative range total is additive over
adjacent ranges: the `[a, c]` total equals the `[a, b]` total plus the
`[b+1, c]` total. -/
theorem C8_range_additivity (history : List WeeklyStat) (a b c : Int)
    (hab : a ≤ b) (hbc : b < c) :
    get_points_for_range history a c =
      get_points_for_range history a b + get_points_for_range history (b + 1) c := by
  cases history with
  | nil => rfl
  | cons r t =>
      simp only [get_points_for_range, List.isEmpty_cons, Bool.false_eq_true, if_false]
      exact sum_filter_round_split (r :: t) a b c hab hbc

theorem C8_witness :
    (1 : Int) ≤ 2 ∧ (2 : Int) < 3 ∧
    get_points_for_range
        [{ round := 1, total_points := 3 }, { round := 2, total_points := 4 },
         { round := 3, total_points := 5 }] 1 3 =
      get_points_for_range
        [{ round := 1, total_points := 3 }, { round := 2, total_points := 4 },
         { round := 3, total_points := 5 }] 1 2 +
      get_points_for_range
        [{ round := 1, total_points := 3 }, { round := 2, total_points := 4 },
         { round := 3, total_points := 5 }] (2 + 1) 3 :=
  ⟨by decide, by decide,
   C8_range_additivity
     [{ round := 1, total_points := 3 }, { round := 2, total_points := 4 },
      { round := 3, total_points := 5 }] 1 2 3 (by decide) (by decide)⟩

/-- C7: the "Minutes" category is the sum over individual matches of the
per-match classification (2 points when that match's minutes are ≥ 60,
1 point when strictly between 0 and 60, otherwise 0); two 40-minute
matches therefore yield exactly 2 = 1 + 1 points, whatever the position. -/
theorem C7_minutes_per_match (df_hist : List WeeklyStat) (position : String) :
    category_points (build_points_contribution df_hist position).1 ("Minutes") =
      (df_hist.map (fun r =>
        if 60 ≤ r.minutes then 2 else if 0 < r.minutes then 1 else 0)).sum ∧
    category_points (build_points_contribution
        [{ minutes := 40 }, { minutes := 40 }] position).1 ("Minutes") = 2 := by
  constructor
  · rw [category_points_build_minutes]
    simp only [minutes_points_row_cases]
  · rw [category_points_build_minutes]
    decide

/-- C3 counterexample: a forward (no `countsSaves`) with 3 recorded saves in
one match still earns 1 "Saves" point, and a goalkeeper with 2 + 2 saves in
two matches earns 0, not `floor(4 / 3) = 1`. -/
theorem C3_counterexample :
    category_points (build_points_contribution [{ saves := 3 }] ("FWD")).1 ("Saves") = 1 ∧
    category_points (build_points_contribution
        [{ saves := 2 }, { saves := 2 }] ("GK")).1 ("Saves") = 0 := by
  decide

/-- C3 amended: the "Saves" category equals the sum over matches in the range
of `floor(that match's saves / 3)`, for every position alike — the source has
no `countsSaves` gate and does not floor the aggregated total. -/
theorem C3_saves_per_match (df_hist : List WeeklyStat) (position : String) :
    category_points (build_points_contribution df_hist position).1 ("Saves") =
      (df_hist.map (fun r => Int.fdiv r.saves 3)).sum := by
  rw [category_points_build_saves]
  simp [save_points_row]

/-- C10: a position other than DEF, MID and FWD (in particular a goalkeeper)
earns 0 "Defensive Contribution" points for every input history, however
large the recorded `defensive_contribution` values. -/
theorem C10_dc_zero_outside_def_mid_fwd (df_hist : List WeeklyStat) (position : String)
    (h1 : position ≠ "DEF") (h2 : position ≠ "MID") (h3 : position ≠ "FWD") :
    category_points (build_points_contribution df_hist position).1
      ("Defensive Contribution") = 0 := by
  rw [category_points_build_dc]
  apply List.sum_eq_zero
  intro x hx
  simp only [List.mem_map] at hx
  obtain ⟨r, hr, rfl⟩ := hx
  simp [dc_points_row, h1, h2, h3]

theorem C10_witness :
    ("GK" : String) ≠ "DEF" ∧ ("GK" : String) ≠ "MID" ∧ ("GK" : String) ≠ "FWD" ∧
    category_points (build_points_contribution
        [{ defensive_contribution := 1000 }] ("GK")).1 ("Defensive Contribution") = 0 :=
  ⟨by decide, by decide, by decide,
   C10_dc_zero_outside_def_mid_fwd [{ defensive_contribution := 1000 }] ("GK")
     (by decide) (by decide) (by decide)⟩

/-- C2 counterexample: a defender with `defensive_contribution = 10` in each
of two matches earns 4 points in the category (2 per qualifying match), not
a single binary bonus of 2; and a defender with 5 + 5 over two matches
(range aggregate 10 ≥ threshold 10) earns 0, not 2. -/
theorem C2_counterexample :
    category_points (build_points_contribution
        [{ defensive_contribution := 10 }, { defensive_contribution := 10 }]
        ("DEF")).1 ("Defensive Contribution") = 4 ∧
    category_points (build_points_contribution
        [{ defensive_contribution := 5 }, { defensive_contribution := 5 }]
        ("DEF")).1 ("Defensive Contribution") = 0 := by
  decide

/-- C2 amended: for DEF (threshold 10) and MID/FWD (threshold 12), the
"Defensive Contribution" category is the sum over matches in the range of a
per-match binary bonus — 2 points for each match whose own
`defensive_contribution` meets the threshold — so with nonnegative recorded
values it is bounded by 2 × (number of matches in range), not by 2. -/
theorem C2_dc_per_match_binary (df_hist : List WeeklyStat) (position : String) (t : Int)
    (hpt : (position = "DEF" ∧ t = 10) ∨ ((position = "MID" ∨ position = "FWD") ∧ t = 12))
    (h0 : ∀ r ∈ df_hist, 0 ≤ r.defensive_contribution) :
    category_points (build_points_contribution df_hist position).1
        ("Defensive Contribution") =
      (df_hist.map (fun r => if t ≤ r.defensive_contribution then 2 else 0)).sum ∧
    (df_hist.map (fun r => if t ≤ r.defensive_contribution then 2 else 0)).sum ≤
      2 * (df_hist.length : Int) := by
  refine ⟨?_, sum_binary_le df_hist t⟩
  rw [category_points_build_dc]
  have hmap : df_hist.map (fun r => dc_points_row position r.defensive_contribution) =
      df_hist.map (fun r => if t ≤ r.defensive_contribution then 2 else 0) :=
    List.map_congr_left (fun r hr =>
      dc_points_row_binary position t r.defensive_contribution hpt (h0 r hr))
  rw [hmap]

theorem C2_witness :
    ((("MID" : String) = "DEF" ∧ (12 : Int) = 10) ∨
      ((("MID" : String) = "MID" ∨ ("MID" : String) = "FWD") ∧ (12 : Int) = 12)) ∧
    (∀ r ∈ [({ defensive_contribution := 12 } : WeeklyStat)],
      0 ≤ r.defensive_contribution) ∧
    (category_points (build_points_contribution
        [{ defensive_contribution := 12 }] ("MID")).1 ("Defensive Contribution") =
      ([({ defensive_contribution := 12 } : WeeklyStat)].map
        (fun r => if (12 : Int) ≤ r.defensive_contribution then 2 else 0)).sum ∧
    ([({ defensive_contribution := 12 } : WeeklyStat)].map
        (fun r => if (12 : Int) ≤ r.defensive_contribution then 2 else 0)).sum ≤
      2 * (([({ defensive_contribution := 12 } : WeeklyStat)]).length : Int)) :=
  ⟨by decide, by decide,
   C2_dc_per_match_binary [{ defensive_contribution := 12 }] ("MID") 12
     (by decide) (by decide)⟩

/-- C1 counterexample: at a one-match history (90 minutes, authoritative
total 0) the returned breakdown has no "Unattributed" entry at all, and the
sum of its category points (2) differs from the authoritative total (0) —
nothing reconciles the two. -/
theorem C1_counterexample :
    (¬ (("Unattributed") ∈ (build_points_contribution
        [{ minutes := 90 }] ("MID")).1.map (fun r => r.category))) ∧
    ((build_points_contribution [{ minutes := 90 }] ("MID")).1.map
        (fun r => r.points)).sum ≠
      (build_points_contribution [{ minutes := 90 }] ("MID")).2 := by
  decide

/-- C1 amended: for every player and range the breakdown contains exactly the
11 fixed categories (no "Unattributed" residual entry); instead of a residual,
the function returns the authoritative range total itself as a second
component, equal to `get_points_for_range` on the same history and range —
the category sum is not reconciled against it. -/
theorem C1_breakdown_categories_and_total (history : List WeeklyStat)
    (position : String) (gw1 gw2 : Int) :
    (build_points_contribution (filter_round_range history gw1 gw2) position).1.map
        (fun r => r.category) = category_names ∧
    (build_points_contribution (filter_round_range history gw1 gw2) position).2 =
      get_points_for_range history gw1 gw2 := by
  refine ⟨build_fst_categories _ _, ?_⟩
  rw [build_snd]
  cases history with
  | nil => rfl
  | cons r t => simp [get_points_for_range]

/-- C4 counterexample: with a history holding 7 points at round 5, the
reversed range [6, 3] is not rejected: `get_points_for_range` silently
returns the zeroed total 0 (while the valid range [1, 10] returns 7), and the
breakdown over the reversed range is the all-zero one — returned as if valid. -/
theorem C4_counterexample :
    get_points_for_range [{ round := 5, total_points := 7 }] 6 3 = 0 ∧
    get_points_for_range [{ round := 5, total_points := 7 }] 1 10 = 7 ∧
    (build_points_contribution (filter_round_range
        [{ round := 5, total_points := 7 }] 6 3) ("MID")).1.map (fun r => r.points) =
      List.replicate 11 0 := by
  decide

/-- C4 amended: the code performs no range validation and has no
`InvalidRange` error; for start > end the round filter matches nothing, so
`get_points_for_range` returns 0 and the breakdown is the all-zero
11-category one with total 0 — indistinguishable from an empty range. -/
theorem C4_reversed_range_zeroed (history : List WeeklyStat) (position : String)
    (gw1 gw2 : Int) (h : gw2 < gw1) :
    filter_round_range history gw1 gw2 = [] ∧
    get_points_for_range history gw1 gw2 = 0 ∧
    build_points_contribution (filter_round_range history gw1 gw2) position =
      (category_names.map (fun c => ⟨c, 0, 0⟩), 0) := by
  have hf : filter_round_range history gw1 gw2 = [] := by
    rw [filter_round_range, List.filter_eq_nil_iff]
    intro r hr
    simp only [decide_eq_true_eq]
    omega
  refine ⟨hf, ?_, by rw [hf]; rfl⟩
  cases history with
  | nil => rfl
  | cons r t => simp [get_points_for_range, hf]

theorem C4_witness :
    (3 : Int) < 6 ∧
    (filter_round_range [{ round := 5, total_points := 7 }] 6 3 = [] ∧
    get_points_for_range [{ round := 5, total_points := 7 }] 6 3 = 0 ∧
    build_points_contribution (filter_round_range
        [{ round := 5, total_points := 7 }] 6 3) ("FWD") =
      (category_names.map (fun c => ⟨c, 0, 0⟩), 0)) :=
  ⟨by decide,
   C4_reversed_range_zeroed [{ round := 5, total_points := 7 }] ("FWD") 6 3 (by decide)⟩

/-- C5 counterexample: two breakdowns with the same "Bonus" value 5 produce a
winner star for BOTH players — the equal-value outcome is two winner marks,
not a no-winner tie. -/
theorem C5_counterexample :
    compare_stars
      ((category_points (build_points_contribution
          [{ bonus := 5 }] ("MID")).1 ("Bonus") : Int) : ℚ)
      ((category_points (build_points_contribution
          [{ bonus := 5 }] ("FWD")).1 ("Bonus") : Int) : ℚ) = (true, true) := by
  rw [(by decide : category_points (build_points_contribution
        [{ bonus := 5 }] ("MID")).1 ("Bonus") = 5),
      (by decide : category_points (build_points_contribution
        [{ bonus := 5 }] ("FWD")).1 ("Bonus") = 5)]
  unfold compare_stars winner_star
  simp only [max_self, sub_self, abs_zero, Prod.mk.injEq, Bool.and_eq_true,
    decide_eq_true_eq]
  norm_num

/-- C5 amended: when the two category values are equal, the star assignment
marks both players as winners exactly when the common value is positive, and
marks neither otherwise — equality never yields a single winner, but a
positive tie yields two winner marks rather than none. -/
theorem C5_equal_values_star_both (dfA dfB : List WeeklyStat) (posA posB c : String)
    (h : category_points (build_points_contribution dfA posA).1 c =
         category_points (build_points_contribution dfB posB).1 c) :
    compare_stars
        ((category_points (build_points_contribution dfA posA).1 c : Int) : ℚ)
        ((category_points (build_points_contribution dfB posB).1 c : Int) : ℚ) =
      (decide (0 < category_points (build_points_contribution dfA posA).1 c),
       decide (0 < category_points (build_points_contribution dfB posB).1 c)) := by
  rw [← h]
  unfold compare_stars winner_star
  simp only [max_self, sub_self, abs_zero]
  rw [decide_eq_true (by norm_num : ((0 : ℚ) < 1 / 1000000000))]
  simp only [Bool.and_true]
  simp [Int.cast_pos]

theorem C5_witness :
    (category_points (build_points_contribution [{ bonus := 5 }] ("MID")).1 ("Bonus") =
      category_points (build_points_contribution [{ bonus := 5 }] ("FWD")).1 ("Bonus")) ∧
    compare_stars
        ((category_points (build_points_contribution
            [{ bonus := 5 }] ("MID")).1 ("Bonus") : Int) : ℚ)
        ((category_points (build_points_contribution
            [{ bonus := 5 }] ("FWD")).1 ("Bonus") : Int) : ℚ) =
      (decide (0 < category_points (build_points_contribution
          [{ bonus := 5 }] ("MID")).1 ("Bonus")),
       decide (0 < category_points (build_points_contribution
          [{ bonus := 5 }] ("FWD")).1 ("Bonus"))) :=
  ⟨by decide,
   C5_equal_values_star_both [{ bonus := 5 }] [{ bonus := 5 }] ("MID") ("FWD") ("Bonus")
     (by decide)⟩

/-- C9: whenever the filtered history is nonempty but its authoritative total
is zero or negative, the guarded percentage branch is taken and every
category's "% of Total" is exactly 0 — the division by the total is never
performed on a non-positive total. -/
theorem C9_pct_zero_on_nonpositive_total (df_hist : List WeeklyStat) (position : String)
    (hne : df_hist ≠ [])
    (htot : (df_hist.map (fun r => r.total_points)).sum ≤ 0) :
    ∀ row ∈ (build_points_contribution df_hist position).1, row.pct_of_total = 0 := by
  cases df_hist with
  | nil => exact absurd rfl hne
  | cons r t =>
      intro row hrow
      rw [build_fst_cons] at hrow
      simp only [List.mem_map] at hrow
      obtain ⟨cp, hcp, rfl⟩ := hrow
      simp only [pct_of, if_neg (not_lt.mpr htot)]

theorem C9_witness :
    ([({ minutes := 90, yellow_cards := 1, total_points := -1 } : WeeklyStat)] ≠ []) ∧
    (([({ minutes := 90, yellow_cards := 1, total_points := -1 } : WeeklyStat)].map
        (fun r => r.total_points)).sum ≤ 0) ∧
    (∀ row ∈ (build_points_contribution
        [{ minutes := 90, yellow_cards := 1, total_points := -1 }] ("DEF")).1,
      row.pct_of_total = 0) :=
  ⟨by decide, by decide,
   C9_pct_zero_on_nonpositive_total
     [{ minutes := 90, yellow_cards := 1, total_points := -1 }] ("DEF")
     (by decide) (by decide)⟩

/-- C6: a player whose (nonempty) history has no rounds inside the range gets
a valid, non-error result: the all-zero 11-category breakdown with total 0
(hence residual 0), while a player with no history at all is skipped
(`none`) — the two outcomes are distinguishable. -/
theorem C6_empty_range_all_zero (history : List WeeklyStat) (gw1 gw2 : Int)
    (position : String) (hne : history ≠ [])
    (hout : ∀ r ∈ history, r.round < gw1 ∨ gw2 < r.round) :
    player_contribution history gw1 gw2 position =
        some (category_names.map (fun c => ⟨c, 0, 0⟩), 0) ∧
    reconcile_residual (category_names.map (fun c => ⟨c, 0, 0⟩)) 0 = 0 ∧
    player_contribution [] gw1 gw2 position = none := by
  refine ⟨?_, by decide, rfl⟩
  have hf : filter_round_range history gw1 gw2 = [] := by
    rw [filter_round_range, List.filter_eq_nil_iff]
    intro r hr
    have := hout r hr
    simp only [decide_eq_true_eq]
    omega
  cases history with
  | nil => exact absurd rfl hne
  | cons r t =>
      simp only [player_contribution, List.isEmpty_cons, Bool.false_eq_true, if_false]
      rw [hf]
      rfl

theorem C6_witness :
    ([({ round := 5, total_points := 7 } : WeeklyStat)] ≠ []) ∧
    (∀ r ∈ [({ round := 5, total_points := 7 } : WeeklyStat)],
      r.round < 1 ∨ (4 : Int) < r.round) ∧
    (player_contribution [{ round := 5, total_points := 7 }] 1 4 ("MID") =
        some (category_names.map (fun c => ⟨c, 0, 0⟩), 0) ∧
    reconcile_residual (category_names.map (fun c => ⟨c, 0, 0⟩)) 0 = 0 ∧
    player_contribution [] 1 4 ("MID") = none) :=
  ⟨by decide, by decide,
   C6_empty_range_all_zero [{ round := 5, total_points := 7 }] 1 4 ("MID")
     (by decide) (by decide)⟩
